import Mathlib

/-!
Shallow embedding of the AI orchestration core of the InvoiceTracker backend
(`backend/app/core/...`), together with theorems checking the natural-language
specification against it.  Text is modelled as `List Char` (Python `str`
indexing/slicing is by character), machine floats appearing only as opaque
similarity scores are modelled as `ℚ` (the float cosine itself is abstracted as
a parameter where only its ordering matters, and its denominator is modelled
over `ℝ` where its positivity is at stake), and fallible calls return `Except`.
-/

namespace InvoiceTracker

/-! ## Chunking (`EmbeddingGenerator.chunk_text`, embeddings.py)

All call sites in the repository use the default parameters
`chunk_size = 500`, `overlap = 50`; those defaults are fixed here. -/

/-- Default `chunk_size` parameter of `chunk_text`. -/
def chunkSize : Nat := 500

/-- Default `overlap` parameter of `chunk_text`. -/
def chunkOverlap : Nat := 50

/-- Python slice `t[a:b]` (clamped at both ends, `a ≤ b` case). -/
def pySlice (t : List Char) (a b : Nat) : List Char :=
  (t.drop a).take (b - a)

/-- Python `str.strip()` whitespace set (ASCII part, which is all that the
chunker's inputs exercise). -/
def isPyWhitespace (c : Char) : Bool :=
  c = ' ' || c = '\t' || c = '\n' || c = '\r' || c = '\x0b' || c = '\x0c'

/-- Python `str.strip()`: drop leading and trailing whitespace. -/
def pyStrip (s : List Char) : List Char :=
  ((s.dropWhile isPyWhitespace).reverse.dropWhile isPyWhitespace).reverse

/-- Python `s.rfind(pat)`: greatest index at which `pat` occurs in `s`
(`none` for Python's `-1`). -/
def pyRfind (s pat : List Char) : Option Nat :=
  (List.range (s.length + 1)).reverse.find? (fun i => pat.isPrefixOf (s.drop i))

/-- The boundary markers tried in order by `chunk_text`:
`['. ', '.\n', '\n\n', '\n', ' ']`. -/
def boundaryMarkers : List (List Char) :=
  [['.', ' '], ['.', '\n'], ['\n', '\n'], ['\n'], [' ']]

/-- The `for boundary in [...]` loop of `chunk_text`: for the first marker
whose rightmost occurrence in the current window lies strictly past
`chunk_size // 2`, move the cut to just after that occurrence; otherwise keep
the raw end `e`.  The result is bundled with the bound that justifies
termination of the chunking loop. -/
def adjustEnd (window : List Char) (start e : Nat) :
    (bs : List (List Char)) → { n : Nat // n = e ∨ start + chunkSize / 2 < n }
  | [] => ⟨e, Or.inl rfl⟩
  | b :: bs =>
    match pyRfind window b with
    | some lb =>
      if h : chunkSize / 2 < lb then
        ⟨start + lb + b.length, Or.inr (by omega)⟩
      else
        adjustEnd window start e bs
    | none => adjustEnd window start e bs

/-- One iteration's cut position: `end = start + chunk_size`, boundary-adjusted
when it falls before the end of the text.  Bundled with the lower bound
`start + overlap < end` used for termination. -/
def chunkEndB (t : List Char) (start : Nat) : { n : Nat // start + chunkOverlap < n } :=
  let e0 := start + chunkSize
  if e0 < t.length then
    let a := adjustEnd (pySlice t start e0) start e0 boundaryMarkers
    ⟨a.val, by
      rcases a.property with h | h
      · simp only [h]; simp [chunkSize, chunkOverlap, e0]
      · simp only [chunkSize, chunkOverlap] at h ⊢; omega⟩
  else
    ⟨e0, by simp [chunkSize, chunkOverlap, e0]⟩

/-- The cut position of the loop iteration starting at `start`. -/
def chunkEnd (t : List Char) (start : Nat) : Nat :=
  (chunkEndB t start).val

/-- The `while start < len(text)` loop of `chunk_text`: slice the window,
strip it, keep it when non-empty, and advance to `end - overlap`. -/
def chunkLoop (t : List Char) (start : Nat) : List (List Char) :=
  if h : start < t.length then
    let c := pyStrip (pySlice t start (chunkEnd t start))
    let rest := chunkLoop t (chunkEnd t start - chunkOverlap)
    if c.isEmpty then rest else c :: rest
  else
    []
termination_by t.length - start
decreasing_by
  have hb := (chunkEndB t start).property
  simp only [chunkEnd] at *
  omega

/-- `EmbeddingGenerator.chunk_text(text)` with the default parameters: a text
at or under `chunk_size` characters is returned unchanged as a single chunk;
otherwise the overlapping-window loop runs. -/
def chunk_text (t : List Char) : List (List Char) :=
  if t.length ≤ chunkSize then [t] else chunkLoop t 0

/-- The sequence of `(start, end)` cut intervals generated by the chunking
loop (the chunks of `chunkLoop` are the stripped slices of these intervals). -/
def chunkIntervals (t : List Char) (start : Nat) : List (Nat × Nat) :=
  if h : start < t.length then
    (start, chunkEnd t start) :: chunkIntervals t (chunkEnd t start - chunkOverlap)
  else
    []
termination_by t.length - start
decreasing_by
  have hb := (chunkEndB t start).property
  simp only [chunkEnd] at *
  omega

/-- Consecutive cut intervals are chained with exactly `overlap` characters of
overlap: each interval starts `overlap` characters before the previous one
ends. -/
def intervalsChained : List (Nat × Nat) → Prop
  | [] => True
  | [_] => True
  | a :: b :: rest => b.1 = a.2 - chunkOverlap ∧ intervalsChained (b :: rest)

/-! ## Retrieval pipeline (embedding_repo.py, rag.py)

`EmbeddingRepository` stores chunks in a collection, modelled as a list in
insertion order.  Float similarity scores are modelled as `ℚ`; the float
cosine itself (which involves square roots) is abstracted as a `score`
parameter wherever only its ordering matters, while its guarded denominator is
modelled over `ℝ` to settle its positivity. -/

/-- `DocumentChunk` rows of the `document_embeddings` collection
(`EmbeddingChunk` in models.py; the `_id`/`created_at` bookkeeping fields play
no role in the claims). -/
structure EmbeddingChunk where
  document_id : String
  chunk_index : Nat
  chunk_text : String
  embedding : List ℚ
deriving DecidableEq

/-- Insert into a descending-by-score list, after every element of strictly
greater score: the unique stable position, matching Python's stable
`sort(key=..., reverse=True)`. -/
def insertDescBy {α : Type} (score : α → ℚ) (x : α) : List α → List α
  | [] => [x]
  | y :: ys => if score x < score y then y :: insertDescBy score x ys else x :: y :: ys

/-- Stable descending sort by score (extensionally equal to Python's stable
`list.sort(key=..., reverse=True)`). -/
def sortDescBy {α : Type} (score : α → ℚ) : List α → List α
  | [] => []
  | x :: xs => insertDescBy score x (sortDescBy score xs)

/-- Insert into an ascending-by-key list after every element of less-or-equal
key: the stable position. -/
def insertAscBy {α : Type} (key : α → Nat) (x : α) : List α → List α
  | [] => [x]
  | y :: ys => if key y ≤ key x then y :: insertAscBy key x ys else x :: y :: ys

/-- Stable ascending sort by key (the MongoDB `.sort("chunk_index", 1)` of
`get_by_document`). -/
def sortAscBy {α : Type} (key : α → Nat) : List α → List α
  | [] => []
  | x :: xs => insertAscBy key x (sortAscBy key xs)

/-- `EmbeddingRepository.get_by_document`: all chunks of a document, ordered
ascending by `chunk_index`. -/
def get_by_document (store : List EmbeddingChunk) (doc : String) : List EmbeddingChunk :=
  sortAscBy (fun c => c.chunk_index) (store.filter (fun c => c.document_id == doc))

/-- `EmbeddingRepository.delete_by_document`: remove every chunk of the
document. -/
def delete_by_document (store : List EmbeddingChunk) (doc : String) : List EmbeddingChunk :=
  store.filter (fun c => !(c.document_id == doc))

/-- `EmbeddingRepository.create_many`: batch insert. -/
def create_many (store new : List EmbeddingChunk) : List EmbeddingChunk :=
  store ++ new

/-- `EmbeddingRepository.similarity_search`: load the document's chunks,
score each against the query embedding, stably sort descending by score and
take the first `top_k`.  The float cosine is abstracted as the `score`
parameter (only its ordering matters here); its guarded denominator is
`cosineDenom` below. -/
def similarity_search (store : List EmbeddingChunk) (doc : String)
    (score : EmbeddingChunk → ℚ) (top_k : Nat) : List EmbeddingChunk :=
  let embeddings := get_by_document store doc
  if embeddings.isEmpty then []
  else (sortDescBy score embeddings).take top_k

/-- `np.dot` of two vectors (equal-length use only). -/
def dotProduct (q e : List ℚ) : ℚ :=
  ((q.zip e).map (fun p => p.1 * p.2)).sum

/-- Sum of squares, `‖v‖²`. -/
def sumSq (v : List ℚ) : ℚ :=
  (v.map (fun x => x * x)).sum

/-- The denominator of the cosine similarity in `similarity_search`:
`np.linalg.norm(q) * np.linalg.norm(e) + 1e-8`. -/
noncomputable def cosineDenom (q e : List ℚ) : ℝ :=
  Real.sqrt ((sumSq q : ℚ) : ℝ) * Real.sqrt ((sumSq e : ℚ) : ℝ) + 1 / 100000000

/-- The cosine similarity computed by `similarity_search`, total thanks to the
guarded denominator. -/
noncomputable def cosineSimilarity (q e : List ℚ) : ℝ :=
  ((dotProduct q e : ℚ) : ℝ) / cosineDenom q e

/-- `RAGPipeline.index_document`: delete the document's existing chunks, chunk
the text, embed every chunk (`embed` abstracts the sentence-transformers
model, deterministic per its contract) and store all chunks in one batch with
indices `0..n-1`; returns the new store and the chunk count. -/
def index_document (embed : String → List ℚ) (store : List EmbeddingChunk)
    (doc : String) (text : List Char) : List EmbeddingChunk × Nat :=
  let store1 := delete_by_document store doc
  let chunks := (chunk_text text).map (fun c => String.mk c)
  if chunks.isEmpty then (store1, 0)
  else
    let embChunks := chunks.enum.map (fun p => EmbeddingChunk.mk doc p.1 p.2 (embed p.2))
    (create_many store1 embChunks, embChunks.length)

/-- Result of a successful Gateway (`GroqClient.invoke`) call. -/
structure GatewayOk where
  content : String
  model_used : String
deriving DecidableEq

/-- The part of a stored document that `RAGPipeline.query` reads
(`DocumentRepository.get_by_id` result): its manual correction overlay. -/
structure DocumentInfo where
  admin_corrections : Option (List (String × String))
deriving DecidableEq

/-- The dict returned by `RAGPipeline.query`.  `chunks_used = none` and
`has_admin_corrections = none` mean the key is absent (the short-circuit
return carries only `answer`, `sources` and `model_used`); the inner
`Option Bool` of `has_admin_corrections` models Python's
`document and document.admin_corrections is not None`, which is `None` when
the document lookup failed. -/
structure QueryResult where
  answer : String
  sources : List String
  model_used : Option String
  chunks_used : Option Nat
  has_admin_corrections : Option (Option Bool)
deriving DecidableEq

/-- The fixed "not indexed" short-circuit answer of `RAGPipeline.query`. -/
def notIndexedAnswer : String :=
  "No relevant information found in this invoice. The document may not have been indexed yet."

/-- `RAG_SYSTEM_PROMPT.format(context=context)`. -/
def ragSystemPrompt (context : String) : String :=
  "You are an AI assistant specialized in answering questions about invoices.\n" ++
  "You MUST answer based ONLY on the provided context from the invoice document.\n" ++
  "If the information is not in the context, say \"This information is not available in the invoice.\"\n" ++
  "Do NOT make up information. Be precise and cite specific values from the invoice.\n\n" ++
  "Context from the invoice:\n" ++ context ++
  "\n\nAnswer the user\x27s question based solely on this context."

/-- The admin-corrections block appended to the context when the document
carries a non-empty correction overlay. -/
def adminCorrectionsBlock (corr : List (String × String)) : String :=
  "\n\n---\n\nIMPORTANT: Admin Corrections Applied to This Invoice\n" ++
  "The following fields were manually corrected by an administrator:\n" ++
  String.intercalate "\n" (corr.map (fun p => "- " ++ p.1 ++ ": " ++ p.2)) ++
  "\n\nWhen answering questions about these fields, mention BOTH the original value " ++
  "from the document AND the corrected value from the admin. Format: \"The [field] " ++
  "in the document is [original], but an admin has corrected it to [corrected value].\"\n"

/-- Python `s[:100]`. -/
def takeChars (n : Nat) (s : String) : String :=
  String.mk (s.toList.take n)

/-- `RAGPipeline.query(document_id, question, top_k=3)`.  `gw` is the Gateway
oracle (system prompt and question to outcome), `score` abstracts the float
cosine against the embedded question, `docLookup` is the document lookup
result.  Returns the result dict together with whether the Gateway was
called; a Gateway exception propagates as `.error`. -/
def rag_query (gw : String → String → Except String GatewayOk)
    (score : EmbeddingChunk → ℚ) (docLookup : Option DocumentInfo)
    (store : List EmbeddingChunk) (doc question : String) (top_k : Nat) :
    Except String (QueryResult × Bool) :=
  let relevant := similarity_search store doc score top_k
  if relevant.isEmpty then
    .ok (⟨notIndexedAnswer, [], none, none, none⟩, false)
  else
    let context0 := String.intercalate "\n\n---\n\n" (relevant.map (fun c => c.chunk_text))
    let context :=
      match docLookup with
      | some d =>
        match d.admin_corrections with
        | some corr => if corr.isEmpty then context0 else context0 ++ adminCorrectionsBlock corr
        | none => context0
      | none => context0
    match gw (ragSystemPrompt context) question with
    | .error e => .error e
    | .ok g =>
      .ok (⟨g.content,
            relevant.map (fun c => takeChars 100 c.chunk_text ++ "..."),
            some g.model_used,
            some relevant.length,
            some (match docLookup with
                  | none => none
                  | some d => some d.admin_corrections.isSome)⟩, true)

/-! ## Model Access Gateway (`GroqClient`, groq_client.py)

`att m n` is the backend outcome of attempt `n` (0-based) of model `m` — a
fixed failure pattern; `clean` abstracts `clean_llm_response` (regex
post-processing of the returned text, irrelevant to control flow). -/

/-- `GroqClient._get_next_fallback_model`: next model in pool order, wrapping;
first pool entry when the current model is not pooled; `none` on an empty
pool. -/
def nextFallback (models : List String) (current : String) : Option String :=
  match models.indexOf? current with
  | some i => models.get? ((i + 1) % models.length)
  | none => models.head?

/-- `GroqClient._invoke_with_retry` under
`@retry(stop=stop_after_attempt(3), reraise=True)`: up to three attempts, the
third attempt's outcome (its error included, by `reraise`) propagating.
Backoff delays affect timing only, not values. -/
def invokeWithRetry (att : Nat → Except String String) : Except String String :=
  match att 0 with
  | .ok r => .ok r
  | .error _ =>
    match att 1 with
    | .ok r => .ok r
    | .error _ => att 2

/-- The `while len(models_tried) < len(self.models)` fallback loop of
`GroqClient.invoke`.  The fuel `models.length + 1` can never run out before
the guard fails — every iteration adds one model not yet tried — and the
fuel-0 value is the same guard-exit error the loop falls through to. -/
def invokeLoop (clean : String → String) (att : String → Nat → Except String String)
    (models : List String) : Nat → List String → String → Except String GatewayOk
  | 0, _, _ => .error "No available models to try"
  | fuel + 1, tried, selected =>
    if tried.length < models.length then
      let tried1 := if selected ∈ tried then tried else selected :: tried
      match invokeWithRetry (att selected) with
      | .ok content => .ok ⟨clean content, selected⟩
      | .error e =>
        match nextFallback models selected with
        | some next =>
          if next ∈ tried1 then .error ("All models failed. Last error: " ++ e)
          else invokeLoop clean att models fuel tried1 next
        | none => .error ("All models failed. Last error: " ++ e)
    else .error "No available models to try"

/-- `GroqClient.invoke` without an explicit `model_name`: `selected` stands
for the uniform random pool pick `random.choice(self.models)` (hence a pool
member). -/
def invoke (clean : String → String) (att : String → Nat → Except String String)
    (models : List String) (selected : String) : Except String GatewayOk :=
  invokeLoop clean att models (models.length + 1) [] selected

/-! ## Intent Orchestrator (state.py, nodes.py, graph.py)

Each node is a function from `AgentState` to `AgentState`, paired with the
list of external calls (Gateway / tool invocations) it performs; fallible
collaborators appear as oracle parameters.  Python truthiness of optional
string fields (`None` and `""` falsy) is `optStrTruthy`. -/

/-- Python `str.lower()` (ASCII case folding, all the keyword checks use
ASCII). -/
def strLower (s : String) : String :=
  String.mk (s.toList.map Char.toLower)

/-- Python `pat in s` on strings: substring containment. -/
def strContains (s pat : String) : Bool :=
  decide (pat.toList <:+: s.toList)

/-- Python `str.upper()` (ASCII). -/
def strUpper (s : String) : String :=
  String.mk (s.toList.map Char.toUpper)

/-- Python truthiness of an optional string (`None` and `""` are falsy). -/
def optStrTruthy : Option String → Bool
  | none => false
  | some s => !(s == "")

/-- Python `a or b` over optional strings. -/
def pyOr (a b : Option String) : Option String :=
  if optStrTruthy a then a else b

/-- Python `a or d` yielding a plain string default. -/
def pyOrD (a : Option String) (d : String) : String :=
  if optStrTruthy a then a.getD "" else d

/-- Python `dict.get` over a small string dict. -/
def dictGet (k : String) (d : List (String × String)) : Option String :=
  (d.find? (fun p => p.1 == k)).map Prod.snd

/-- Uniform `{success, data, error}` envelope of the MCP tool collaborators. -/
structure ToolResult (α : Type) where
  success : Bool
  data : α
  error : Option String
deriving DecidableEq

/-- One validation issue (`severity`/`field`/`message` are indexed directly
by the rendering code, so they are total fields). -/
structure ValidationIssue where
  severity : String
  field : String
  message : String
deriving DecidableEq

/-- `validate_invoice` tool payload as consumed by `validation_node`; the
`Bool`s model the truthiness of `data.get("valid")`/`data.get("needs_review")`
and `issues` models `data.get("issues", [])`. -/
structure ValidationData where
  valid : Bool := false
  issues : List ValidationIssue := []
  needs_review : Bool := false
  review_reason : Option String := none
deriving DecidableEq

/-- `force_validate_document` tool payload (`data.get("message", default)`). -/
structure ForceValidateData where
  message : Option String := none
deriving DecidableEq

/-- One row of the `list_invoices` tool result. -/
structure InvoiceInfo where
  filename : String
  id : String
  status : String
deriving DecidableEq

/-- `list_invoices` tool result. -/
structure ListInvoicesResult where
  success : Bool := false
  invoices : List InvoiceInfo := []
  error : Option String := none
deriving DecidableEq

/-- `invoice.metadata` fields read by `get_details_node`
(each via `.get(key, default)`). -/
structure InvoiceMetadata where
  vendor : Option String := none
  invoice_number : Option String := none
  date : Option String := none
  total : Option String := none
  currency : Option String := none
deriving DecidableEq

/-- The `invoice` dict of `get_invoice_details` (`validation = some v` models
a present, truthy validation sub-dict). -/
structure InvoiceDetails where
  filename : Option String := none
  status : Option String := none
  metadata : InvoiceMetadata := {}
  validation : Option ValidationData := none
deriving DecidableEq

/-- `get_invoice_details` tool result. -/
structure DetailsResult where
  success : Bool := false
  invoice : InvoiceDetails := {}
  error : Option String := none
deriving DecidableEq

/-- `export_invoices` tool result. -/
structure ExportResult where
  success : Bool := false
  download_url : Option String := none
  invoice_count : Nat := 0
  error : Option String := none
deriving DecidableEq

/-- `state.tool_result` payloads (heterogeneous dict in Python). -/
inductive ToolPayload where
  | query (r : QueryResult)
  | listing (r : ListInvoicesResult)
  | details (r : DetailsResult)
deriving DecidableEq

/-- An external call performed by a node. -/
inductive ExtCall where
  | gateway
  | tool (name : String)
deriving DecidableEq

/-- `AgentState` (state.py), with the pydantic defaults.  `export_filters`
is kept as a plain dict: the only place a `None` could be stored
(`classification.get("export_filters", {})`) is read back exclusively through
`state.export_filters or {}`, so `[]` is behaviourally identical. -/
structure AgentState where
  user_message : String
  session_id : String := ""
  document_id : Option String := none
  intent : Option String := none
  target_document_id : Option String := none
  query_text : Option String := none
  export_format : Option String := none
  export_filters : List (String × String) := []
  tool_name : Option String := none
  tool_args : List (String × String) := []
  tool_result : Option ToolPayload := none
  response : Option String := none
  sources : List String := []
  download_url : Option String := none
  error : Option String := none
  needs_clarification : Bool := false
  clarification_question : Option String := none
  model_used : Option String := none
deriving DecidableEq

/-- The classifier output dict (fields as read via `.get`). -/
structure Classification where
  intent : Option String := none
  document_id : Option String := none
  export_format : Option String := none
  export_filters : Option (List (String × String)) := none
deriving DecidableEq

/-- The keyword-heuristic fallback of `classify_intent_node`, applied when
the classifier output fails to parse as JSON.  Note its export branch infers
the format from `"excel"` only (no `"xlsx"` check, unlike the fast-path). -/
def heuristicClassification (m : String) : Classification :=
  let ml := strLower m
  if strContains ml "list" && strContains ml "invoice" then
    { intent := some "list_documents" }
  else if strContains ml "export" || strContains ml "download" then
    { intent := some "export_invoices",
      export_format := some (if strContains ml "excel" then "excel" else "csv") }
  else if strContains ml "validate" then
    { intent := some "validate_invoice" }
  else if strContains ml "delete" then
    { intent := some "delete_document" }
  else if strContains ml "detail" || strContains ml "show" then
    { intent := some "get_document_details" }
  else
    { intent := some "general_chat" }

/-- `classify_intent_node`.  `gw` is the Gateway outcome for the
classification call; `parse` abstracts the markdown/regex JSON extraction
plus `json.loads` of the classifier output (`none` = parse failure). -/
def classify_intent_node (gw : Except String GatewayOk)
    (parse : String → Option Classification) (s : AgentState) :
    AgentState × List ExtCall :=
  let ml := strLower s.user_message
  if strContains ml "export" || (strContains ml "download" && strContains ml "invoice") then
    ({ s with
        intent := some "export_invoices"
        export_format := some (if strContains ml "excel" || strContains ml "xlsx"
          then "excel" else "csv")
        export_filters := [] }, [])
  else
    match gw with
    | .error _ => ({ s with intent := some "general_chat", error := none }, [.gateway])
    | .ok g =>
      let cls := (parse g.content).getD (heuristicClassification s.user_message)
      ({ s with
          intent := some (cls.intent.getD "general_chat")
          target_document_id := pyOr cls.document_id s.document_id
          export_format := cls.export_format
          export_filters := cls.export_filters.getD []
          model_used := some g.model_used }, [.gateway])

/-- `validation_node`. -/
def validation_node (tool : ToolResult ValidationData) (s0 : AgentState) :
    AgentState × List ExtCall :=
  let s := { s0 with tool_name := some "validate_invoice" }
  if !(optStrTruthy s.target_document_id) then
    ({ s with
        needs_clarification := true
        clarification_question := some "Which invoice would you like me to validate? Please provide the invoice ID or filename." }, [])
  else
    let s1 :=
      if tool.success then
        if tool.data.valid then
          { s with response := some "✅ **Invoice is valid!**\n\nNo issues found with this invoice." }
        else
          let issues_text := String.intercalate "\n" (tool.data.issues.map (fun i =>
            "- [" ++ i.severity ++ "] **" ++ i.field ++ "**: " ++ i.message))
          let base := "⚠️ **Issues found in invoice:**\n\n" ++ issues_text
          if tool.data.needs_review then
            { s with response := some (base ++ "\n\n**Manual review recommended:** " ++
                tool.data.review_reason.getD "Some aspects need human verification.") }
          else
            { s with response := some base }
      else
        { s with error := tool.error }
    ({ s1 with tool_args := [("document_id", s.target_document_id.getD "")] },
     [.tool "validate_invoice"])

/-- `force_validate_node`. -/
def force_validate_node (tool : ToolResult ForceValidateData) (s0 : AgentState) :
    AgentState × List ExtCall :=
  let s := { s0 with tool_name := some "force_validate_document" }
  if !(optStrTruthy s.target_document_id) then
    ({ s with
        needs_clarification := true
        clarification_question := some "Which invoice would you like me to force validate? Please provide the invoice ID." }, [])
  else if tool.success then
    ({ s with response := some ("✅ **Invoice force validated!**\n\n" ++
        tool.data.message.getD "The invoice has been marked as valid.") },
     [.tool "force_validate_document"])
  else
    ({ s with error := tool.error }, [.tool "force_validate_document"])

/-- `delete_document_node`; `docLookup` is the repository lookup (filename of
the document, if found) and `deleteOk` the service outcome. -/
def delete_document_node (docLookup : Option String) (deleteOk : Bool)
    (s0 : AgentState) : AgentState × List ExtCall :=
  let s := { s0 with tool_name := some "delete_document" }
  if !(optStrTruthy s.target_document_id) then
    ({ s with
        needs_clarification := true
        clarification_question := some "Which invoice would you like to delete? Please provide the invoice ID or filename." }, [])
  else
    match docLookup with
    | none => ({ s with error := some "Document not found" }, [.tool "get_document"])
    | some filename =>
      if deleteOk then
        ({ s with response := some ("🗑️ **Invoice deleted!**\n\nThe invoice \x27" ++
            filename ++ "\x27 has been permanently deleted.") },
         [.tool "get_document", .tool "delete_document"])
      else
        ({ s with error := some "Failed to delete document" },
         [.tool "get_document", .tool "delete_document"])

/-- `rag_query_node`, composing with `rag_query` above. -/
def rag_query_node (gw : String → String → Except String GatewayOk)
    (score : EmbeddingChunk → ℚ) (docLookup : Option DocumentInfo)
    (store : List EmbeddingChunk) (s0 : AgentState) : AgentState × List ExtCall :=
  let s := { s0 with tool_name := some "query_document" }
  let doc_id := pyOr s.target_document_id s.document_id
  if !(optStrTruthy doc_id) then
    ({ s with
        needs_clarification := true
        clarification_question := some "Which invoice are you asking about? Please select an invoice first." }, [])
  else
    match rag_query gw score docLookup store (doc_id.getD "") s.user_message 3 with
    | .ok (r, called) =>
      ({ s with
          response := some r.answer
          sources := r.sources
          model_used := r.model_used
          tool_result := some (.query r) },
       if called then [.gateway] else [])
    | .error e => ({ s with error := some e }, [.gateway])

/-- `list_documents_node`. -/
def list_documents_node (res : Except String ListInvoicesResult) (s0 : AgentState) :
    AgentState × List ExtCall :=
  let s := { s0 with tool_name := some "list_invoices" }
  match res with
  | .error e => ({ s with error := some e }, [.tool "list_invoices"])
  | .ok r =>
    let s1 := { s with tool_result := some (.listing r) }
    if r.success then
      if r.invoices.isEmpty then
        ({ s1 with response := some "You don\x27t have any invoices uploaded yet. Use the upload feature to add invoices." },
         [.tool "list_invoices"])
      else
        ({ s1 with response := some ("Here are your uploaded invoices:\n\n" ++
            String.intercalate "\n" (r.invoices.map (fun inv =>
              "- **" ++ inv.filename ++ "** (ID: " ++ inv.id ++ ") - Status: " ++ inv.status))) },
         [.tool "list_invoices"])
    else
      ({ s1 with error := some (r.error.getD "Failed to list invoices") },
       [.tool "list_invoices"])

/-- The details text rendered by `get_details_node`. -/
def detailsText (inv : InvoiceDetails) : String :=
  let md := inv.metadata
  let base := "**Invoice Details**\n\n- **Filename:** " ++ inv.filename.getD "N/A" ++
    "\n- **Status:** " ++ inv.status.getD "N/A" ++
    "\n- **Vendor:** " ++ md.vendor.getD "N/A" ++
    "\n- **Invoice Number:** " ++ md.invoice_number.getD "N/A" ++
    "\n- **Date:** " ++ md.date.getD "N/A" ++
    "\n- **Total:** " ++ md.currency.getD "$" ++ md.total.getD "N/A" ++ "\n"
  match inv.validation with
  | none => base
  | some v =>
    let s1 := base ++ "\n**Validation:** " ++ (if v.valid then "✓ Valid" else "✗ Invalid")
    if v.issues.isEmpty then s1
    else s1 ++ "\n**Issues:**\n" ++
      String.join (v.issues.map (fun i =>
        "- [" ++ i.severity ++ "] " ++ i.field ++ ": " ++ i.message ++ "\n"))

/-- `get_details_node`. -/
def get_details_node (res : Except String DetailsResult) (s0 : AgentState) :
    AgentState × List ExtCall :=
  let s := { s0 with tool_name := some "get_invoice_details" }
  let doc_id := pyOr s.target_document_id s.document_id
  if !(optStrTruthy doc_id) then
    ({ s with
        needs_clarification := true
        clarification_question := some "Which invoice would you like details about? Please provide the invoice ID or select one." }, [])
  else
    match res with
    | .error e => ({ s with error := some e }, [.tool "get_invoice_details"])
    | .ok r =>
      let s1 := { s with tool_result := some (.details r) }
      if r.success then
        ({ s1 with response := some (detailsText r.invoice) }, [.tool "get_invoice_details"])
      else
        ({ s1 with error := some (r.error.getD "Failed to get invoice details") },
         [.tool "get_invoice_details"])

/-- The fixed capability summary returned by `general_chat_node` when the
Gateway fails. -/
def generalChatFallbackText : String :=
  "I\x27m here to help you with invoice management. Here\x27s what I can do:\n\n" ++
  "📤 **Upload Invoices** - Upload PDF invoices for processing\n" ++
  "✅ **Validate Invoices** - Check invoices for completeness and accuracy\n" ++
  "💬 **Ask Questions** - Query specific invoice details using natural language\n" ++
  "📋 **List Invoices** - View all your uploaded invoices\n" ++
  "📊 **Export Data** - Export invoices to CSV or Excel\n\n" ++
  "Try asking something like \"List all my invoices\" or upload a document to get started!"

/-- `general_chat_node`. -/
def general_chat_node (gw : Except String GatewayOk) (s0 : AgentState) :
    AgentState × List ExtCall :=
  let s := { s0 with tool_name := some "general_chat" }
  match gw with
  | .ok g => ({ s with response := some g.content, model_used := some g.model_used }, [.gateway])
  | .error _ => ({ s with response := some generalChatFallbackText, error := none }, [.gateway])

/-- The success message rendered by `export_invoices_node`. -/
def exportResponseText (fmt : String) (count : Nat) (url : Option String)
    (filters : List (String × String)) : String :=
  "📥 **Export Complete!**\n\nI\x27ve exported **" ++ toString count ++
  " invoices** to " ++ strUpper fmt ++ " format.\n\n" ++
  "**Download Link:** [Click here to download](" ++
  (match url with | some u => u | none => "None") ++ ")\n\nFilters applied:\n" ++
  (if optStrTruthy (dictGet "vendor" filters) then
    "- Vendor: " ++ (dictGet "vendor" filters).getD "" else "- All vendors") ++ "\n" ++
  (if optStrTruthy (dictGet "status" filters) then
    "- Status: " ++ (dictGet "status" filters).getD "" else "- All statuses") ++ "\n"

/-- `export_invoices_node`. -/
def export_invoices_node (res : Except String ExportResult) (s0 : AgentState) :
    AgentState × List ExtCall :=
  let s := { s0 with tool_name := some "export_invoices" }
  let fmt := pyOrD s.export_format "csv"
  match res with
  | .error e =>
    ({ s with error := some e, response := some ("❌ Export failed: " ++ e) },
     [.tool "export_invoices"])
  | .ok r =>
    if r.success then
      ({ s with
          download_url := r.download_url
          response := some (exportResponseText fmt r.invoice_count r.download_url s.export_filters) },
       [.tool "export_invoices"])
    else
      let err := r.error.getD "Export failed"
      ({ s with error := some err, response := some ("❌ Export failed: " ++ err) },
       [.tool "export_invoices"])

/-- `fallback_node`. -/
def fallback_node (s : AgentState) : AgentState :=
  if s.needs_clarification then
    { s with response := some (pyOrD s.clarification_question
        "I\x27m not sure what you\x27re asking. Could you please clarify?") }
  else if optStrTruthy s.error then
    { s with response := some ("I encountered an issue: " ++ s.error.getD "" ++
        ". Please try again or rephrase your request.") }
  else
    { s with response := some "I\x27m not sure how to help with that. You can ask me to:\n- List your invoices\n- Validate an invoice\n- Answer questions about a specific invoice\n- Get invoice details" }

/-- `response_node`. -/
def response_node (s : AgentState) : AgentState :=
  if optStrTruthy s.response then s
  else if optStrTruthy s.error then
    { s with response := some ("Sorry, something went wrong: " ++ s.error.getD "") }
  else
    { s with response := some "I processed your request but have no response to show." }

/-- The handler states of `build_agent_graph`. -/
inductive Route where
  | validation
  | forceValidate
  | deleteDocument
  | exportInvoices
  | ragQuery
  | listDocuments
  | getDetails
  | generalChat
  | fallbackRoute
deriving DecidableEq

/-- `route_by_intent`: errors and clarification requests route to fallback,
otherwise the fixed intent-to-node table applies with fallback default. -/
def route_by_intent (s : AgentState) : Route :=
  if optStrTruthy s.error || s.needs_clarification then .fallbackRoute
  else
    match s.intent with
    | some "validate_invoice" => .validation
    | some "force_validate" => .forceValidate
    | some "delete_document" => .deleteDocument
    | some "export_invoices" => .exportInvoices
    | some "query_document" => .ragQuery
    | some "list_documents" => .listDocuments
    | some "get_document_details" => .getDetails
    | some "general_chat" => .generalChat
    | _ => .fallbackRoute

/-- `should_respond`: `true` routes to `response`, `false` to `fallback`. -/
def should_respond (s : AgentState) : Bool :=
  !(optStrTruthy s.error || s.needs_clarification)

/-- One oracle bundle fixing every external outcome of a run. -/
structure Oracles where
  classifyGw : Except String GatewayOk := .error "unavailable"
  parse : String → Option Classification := fun _ => none
  validationTool : ToolResult ValidationData := ⟨false, {}, none⟩
  forceValidateTool : ToolResult ForceValidateData := ⟨false, {}, none⟩
  deleteLookup : Option String := none
  deleteOk : Bool := false
  ragGw : String → String → Except String GatewayOk := fun _ _ => .error "unavailable"
  ragScore : EmbeddingChunk → ℚ := fun _ => 0
  ragDoc : Option DocumentInfo := none
  ragStore : List EmbeddingChunk := []
  listTool : Except String ListInvoicesResult := .error "unavailable"
  detailsTool : Except String DetailsResult := .error "unavailable"
  generalGw : Except String GatewayOk := .error "unavailable"
  exportTool : Except String ExportResult := .error "unavailable"

/-- Dispatch a routed state to its handler node. -/
def runHandler (o : Oracles) : Route → AgentState → AgentState × List ExtCall
  | .validation, s => validation_node o.validationTool s
  | .forceValidate, s => force_validate_node o.forceValidateTool s
  | .deleteDocument, s => delete_document_node o.deleteLookup o.deleteOk s
  | .exportInvoices, s => export_invoices_node o.exportTool s
  | .ragQuery, s => rag_query_node o.ragGw o.ragScore o.ragDoc o.ragStore s
  | .listDocuments, s => list_documents_node o.listTool s
  | .getDetails, s => get_details_node o.detailsTool s
  | .generalChat, s => general_chat_node o.generalGw s
  | .fallbackRoute, s => (fallback_node s, [])

/-- One orchestration run along the graph of `build_agent_graph`:
classify, conditional route (fallback on error/clarification), one handler,
`should_respond` check (fallback on error/clarification), and the single
terminal `response` node. -/
def runAgentGraph (o : Oracles) (s0 : AgentState) : AgentState :=
  let s1 := (classify_intent_node o.classifyGw o.parse s0).1
  if route_by_intent s1 = .fallbackRoute then
    response_node (fallback_node s1)
  else if should_respond (runHandler o (route_by_intent s1) s1).1 then
    response_node (runHandler o (route_by_intent s1) s1).1
  else
    response_node (fallback_node (runHandler o (route_by_intent s1) s1).1)

/-- The clarification contract of a per-document handler invoked without a
target: clarification flag set with the handler-specific question, no
external call, error untouched. -/
def clarifiesWithout (out : AgentState × List ExtCall) (s : AgentState) (q : String) : Prop :=
  out.1.needs_clarification = true ∧ out.1.clarification_question = some q ∧
  out.2 = [] ∧ out.1.error = s.error

/-! ## Theorems -/

/-- The cut position always lies strictly more than `overlap` characters past
the current start. -/
theorem chunkEnd_gt (t : List Char) (start : Nat) : start + chunkOverlap < chunkEnd t start :=
  (chunkEndB t start).property

/-- `chunkLoop` produces exactly the stripped slices of the cut intervals,
dropping those that strip to empty. -/
theorem chunkLoop_eq_intervals (t : List Char) (start : Nat) :
    chunkLoop t start = (chunkIntervals t start).filterMap (fun iv =>
      let c := pyStrip (pySlice t iv.1 iv.2); if c.isEmpty then none else some c) := by
  induction start using chunkIntervals.induct t with
  | case1 s h ih =>
    rw [chunkLoop, chunkIntervals]
    simp only [dif_pos h, List.filterMap_cons]
    by_cases hc : (pyStrip (pySlice t s (chunkEnd t s))).isEmpty <;>
      simp [hc, ih]
  | case2 s h =>
    rw [chunkLoop, chunkIntervals]
    simp [h]

/-- Every position of the text from `start` on is covered by some cut
interval: the loop leaves no gaps. -/
theorem chunkIntervals_cover (t : List Char) (start : Nat) :
    ∀ p, start ≤ p → p < t.length →
      ∃ iv ∈ chunkIntervals t start, iv.1 ≤ p ∧ p < iv.2 := by
  induction start using chunkIntervals.induct t with
  | case1 s h ih =>
    intro p hsp hpt
    rw [chunkIntervals]
    simp only [dif_pos h]
    by_cases hpe : p < chunkEnd t s
    · exact ⟨(s, chunkEnd t s), List.mem_cons_self _ _, hsp, hpe⟩
    · obtain ⟨iv, hmem, h1, h2⟩ := ih p (by omega) hpt
      exact ⟨iv, List.mem_cons_of_mem _ hmem, h1, h2⟩
  | case2 s h =>
    intro p hsp hpt
    omega

/-- The first cut interval (when any) starts at the loop's start position. -/
theorem chunkIntervals_start (t : List Char) (s : Nat) (iv : Nat × Nat)
    (rest : List (Nat × Nat)) (h : chunkIntervals t s = iv :: rest) : iv.1 = s := by
  rw [chunkIntervals] at h
  by_cases hs : s < t.length
  · simp only [dif_pos hs, List.cons.injEq] at h
    rw [← h.1]
  · simp [dif_neg hs] at h

/-- Consecutive cut intervals overlap by exactly `overlap` characters. -/
theorem chunkIntervals_chain (t : List Char) (start : Nat) :
    intervalsChained (chunkIntervals t start) := by
  induction start using chunkIntervals.induct t with
  | case1 s h ih =>
    rw [chunkIntervals]
    simp only [dif_pos h]
    rcases htail : chunkIntervals t (chunkEnd t s - chunkOverlap) with _ | ⟨iv, rest⟩
    · exact trivial
    · have h1 : iv.1 = chunkEnd t s - chunkOverlap :=
        chunkIntervals_start t _ iv rest htail
      rw [htail] at ih
      exact ⟨h1, ih⟩
  | case2 s h =>
    rw [chunkIntervals]
    simp [h, intervalsChained]

/-- C10: with the default parameters the chunking loop terminates — in each
iteration the start position strictly increases (the next start is
`end - overlap` and `end` exceeds `start + overlap`), and a boundary-adjusted
cut point is accepted only strictly past the chunk midpoint
(`chunk_size // 2 = 250` characters into the chunk), which always exceeds the
50-character overlap subtracted when advancing. -/
theorem chunk_text_start_increases (t : List Char) (start : Nat)
    (h : start < t.length) :
    start < chunkEnd t start - chunkOverlap ∧
      (∀ w e bs, (adjustEnd w start e bs).val = e ∨
        start + chunkSize / 2 < (adjustEnd w start e bs).val) := by
  refine ⟨?_, fun w e bs => (adjustEnd w start e bs).property⟩
  have hb := chunkEnd_gt t start
  omega

/-- Witness for `chunk_text_start_increases` at a concrete input. -/
theorem chunk_text_start_increases_witness :
    0 < chunkEnd ['a'] 0 - chunkOverlap :=
  (chunk_text_start_increases ['a'] 0 (by decide)).1

/-- Counterexample to C1 as stated: for input `" a"` (within the chunk size),
`chunk_text` returns the single chunk `" a"` unchanged, which is not the
trimmed input `"a"`. -/
theorem chunk_text_short_not_trimmed :
    chunk_text (" a".toList) = [(" a".toList)] ∧
      chunk_text (" a".toList) ≠ [pyStrip (" a".toList)] := by
  constructor <;> decide

/-- C1 (amended): with the default parameters, a text at or under the chunk
size is returned as exactly one chunk equal to the input unchanged (not
trimmed); a longer text is cut into intervals that start at 0 (witnessed by
`chunkIntervals t 0`), run with exactly the declared 50-character overlap
between consecutive intervals, and cover the entire original text with no
gaps, the returned chunks being the stripped slices of those intervals (empty
ones dropped). -/
theorem chunk_text_spec (t : List Char) :
    (t.length ≤ chunkSize → chunk_text t = [t]) ∧
    (chunkSize < t.length →
      chunk_text t = (chunkIntervals t 0).filterMap (fun iv =>
        let c := pyStrip (pySlice t iv.1 iv.2); if c.isEmpty then none else some c) ∧
      intervalsChained (chunkIntervals t 0) ∧
      (∀ p, p < t.length → ∃ iv ∈ chunkIntervals t 0, iv.1 ≤ p ∧ p < iv.2)) := by
  constructor
  · intro h
    rw [chunk_text, if_pos h]
  · intro h
    refine ⟨?_, chunkIntervals_chain t 0, fun p hp => chunkIntervals_cover t 0 p (Nat.zero_le p) hp⟩
    rw [chunk_text, if_neg (by omega)]
    exact chunkLoop_eq_intervals t 0

set_option maxRecDepth 4000 in
/-- Witness for `chunk_text_spec`: the short branch at `"ab"` and coverage of
position 500 of a 501-character text. -/
theorem chunk_text_spec_witness :
    chunk_text ("ab".toList) = [("ab".toList)] ∧
      ∃ iv ∈ chunkIntervals (List.replicate 501 'a') 0, iv.1 ≤ 500 ∧ 500 < iv.2 :=
  ⟨(chunk_text_spec ("ab".toList)).1 (by decide),
   ((chunk_text_spec (List.replicate 501 'a')).2 (by simp [chunkSize])).2.2 500 (by simp)⟩

/-- `insertDescBy` only adds the inserted element. -/
theorem insertDescBy_perm {α : Type} (score : α → ℚ) (x : α) (l : List α) :
    (insertDescBy score x l).Perm (x :: l) := by
  induction l with
  | nil => exact List.Perm.refl _
  | cons y ys ih =>
    rw [insertDescBy]
    by_cases h : score x < score y
    · rw [if_pos h]
      exact ((ih.cons y).trans (List.Perm.swap x y ys))
    · rw [if_neg h]

/-- Membership in an insertion. -/
theorem mem_insertDescBy {α : Type} (score : α → ℚ) (x z : α) (l : List α) :
    z ∈ insertDescBy score x l ↔ z = x ∨ z ∈ l := by
  rw [(insertDescBy_perm score x l).mem_iff, List.mem_cons]

/-- Insertion preserves descending-by-score order. -/
theorem pairwise_insertDescBy {α : Type} (score : α → ℚ) (x : α) (l : List α)
    (hl : l.Pairwise (fun a b => score b ≤ score a)) :
    (insertDescBy score x l).Pairwise (fun a b => score b ≤ score a) := by
  induction l with
  | nil => simp [insertDescBy]
  | cons y ys ih =>
    rw [List.pairwise_cons] at hl
    obtain ⟨hy, hys⟩ := hl
    rw [insertDescBy]
    by_cases h : score x < score y
    · rw [if_pos h, List.pairwise_cons]
      refine ⟨fun z hz => ?_, ih hys⟩
      rcases (mem_insertDescBy score x z ys).1 hz with rfl | hz2
      · exact le_of_lt h
      · exact hy z hz2
    · rw [if_neg h, List.pairwise_cons]
      refine ⟨fun z hz => ?_, List.pairwise_cons.2 ⟨hy, hys⟩⟩
      rcases List.mem_cons.1 hz with rfl | hz2
      · exact le_of_not_lt h
      · exact le_trans (hy z hz2) (le_of_not_lt h)

/-- The stable descending sort is a permutation of its input. -/
theorem sortDescBy_perm {α : Type} (score : α → ℚ) (l : List α) :
    (sortDescBy score l).Perm l := by
  induction l with
  | nil => exact List.Perm.refl _
  | cons x xs ih =>
    exact (insertDescBy_perm score x (sortDescBy score xs)).trans (ih.cons x)

/-- The stable descending sort is descending by score. -/
theorem sortDescBy_pairwise {α : Type} (score : α → ℚ) (l : List α) :
    (sortDescBy score l).Pairwise (fun a b => score b ≤ score a) := by
  induction l with
  | nil => simp [sortDescBy]
  | cons x xs ih => exact pairwise_insertDescBy score x _ ih

/-- Stability of insertion: the elements of any fixed score appear in the same
order before and after inserting, with the new element foremost when it has
that score. -/
theorem filter_insertDescBy {α : Type} (score : α → ℚ) (q : ℚ) (x : α) (l : List α) :
    (insertDescBy score x l).filter (fun a => score a == q) =
      if score x == q then x :: l.filter (fun a => score a == q)
      else l.filter (fun a => score a == q) := by
  induction l with
  | nil =>
    by_cases hx : score x == q <;> simp [insertDescBy, List.filter, hx]
  | cons y ys ih =>
    rw [insertDescBy]
    by_cases h : score x < score y
    · rw [if_pos h]
      by_cases hx : score x == q
      · have hy : (score y == q) = false := by
          simp only [beq_iff_eq] at hx ⊢
          simp only [beq_eq_false_iff_ne, ne_eq]
          intro hyq
          rw [hx, hyq] at h
          exact lt_irrefl q h
        simp only [List.filter_cons, hy, ih, hx, if_pos, cond_false]
        simp [hx]
      · simp only [List.filter_cons, ih, hx, if_neg]
        simp [hx]
    · rw [if_neg h]
      by_cases hx : score x == q
      · simp [List.filter_cons, hx]
      · simp [List.filter_cons, hx]

/-- Stability of the sort: ties (elements of equal score) keep their original
relative order. -/
theorem filter_sortDescBy {α : Type} (score : α → ℚ) (q : ℚ) (l : List α) :
    (sortDescBy score l).filter (fun a => score a == q) =
      l.filter (fun a => score a == q) := by
  induction l with
  | nil => rfl
  | cons x xs ih =>
    rw [sortDescBy, filter_insertDescBy, List.filter_cons]
    by_cases hx : score x == q
    · simp [hx, ih]
    · simp [hx, ih]

/-- `insertAscBy` only adds the inserted element. -/
theorem insertAscBy_perm {α : Type} (key : α → Nat) (x : α) (l : List α) :
    (insertAscBy key x l).Perm (x :: l) := by
  induction l with
  | nil => exact List.Perm.refl _
  | cons y ys ih =>
    rw [insertAscBy]
    by_cases h : key y ≤ key x
    · rw [if_pos h]
      exact ((ih.cons y).trans (List.Perm.swap x y ys))
    · rw [if_neg h]

/-- Ascending insertion preserves ascending-by-key order. -/
theorem pairwise_insertAscBy {α : Type} (key : α → Nat) (x : α) (l : List α)
    (hl : l.Pairwise (fun a b => key a ≤ key b)) :
    (insertAscBy key x l).Pairwise (fun a b => key a ≤ key b) := by
  induction l with
  | nil => simp [insertAscBy]
  | cons y ys ih =>
    rw [List.pairwise_cons] at hl
    obtain ⟨hy, hys⟩ := hl
    rw [insertAscBy]
    by_cases h : key y ≤ key x
    · rw [if_pos h, List.pairwise_cons]
      refine ⟨fun z hz => ?_, ih hys⟩
      rcases List.mem_cons.1 ((insertAscBy_perm key x ys).mem_iff.1 hz) with rfl | hz2
      · exact h
      · exact hy z hz2
    · rw [if_neg h, List.pairwise_cons]
      refine ⟨fun z hz => ?_, List.pairwise_cons.2 ⟨hy, hys⟩⟩
      rcases List.mem_cons.1 hz with rfl | hz2
      · exact le_of_not_le h
      · exact le_trans (le_of_not_le h) (hy z hz2)

/-- The retrieval order of `get_by_document` is ascending by chunk index. -/
theorem sortAscBy_pairwise {α : Type} (key : α → Nat) (l : List α) :
    (sortAscBy key l).Pairwise (fun a b => key a ≤ key b) := by
  induction l with
  | nil => simp [sortAscBy]
  | cons x xs ih => exact pairwise_insertAscBy key x _ ih

/-- The guarded cosine denominator is strictly positive for every pair of
vectors, zero-norm vectors included: the cosine computation is total. -/
theorem cosineDenom_pos (v w : List ℚ) : 0 < cosineDenom v w := by
  rw [cosineDenom]
  have h1 : (0:ℝ) ≤ Real.sqrt ((sumSq v : ℚ) : ℝ) := Real.sqrt_nonneg _
  have h2 : (0:ℝ) ≤ Real.sqrt ((sumSq w : ℚ) : ℝ) := Real.sqrt_nonneg _
  nlinarith

/-- C4: `get_by_document` returns chunks in ascending `chunk_index` order;
`similarity_search` returns at most `top_k` chunks, in descending score
order; when `top_k` covers all `k` stored chunks it returns all of them
(a permutation of the retrieval list) with ties preserving the original
retrieval order; and the cosine denominator is guarded, hence positive even
for zero-norm vectors. -/
theorem similarity_search_spec (store : List EmbeddingChunk) (doc : String)
    (score : EmbeddingChunk → ℚ) (top_k : Nat) :
    (get_by_document store doc).Pairwise (fun a b => a.chunk_index ≤ b.chunk_index) ∧
    (similarity_search store doc score top_k).length ≤ top_k ∧
    (similarity_search store doc score top_k).Pairwise (fun a b => score b ≤ score a) ∧
    ((get_by_document store doc).length ≤ top_k →
      (similarity_search store doc score top_k).Perm (get_by_document store doc) ∧
      (∀ q : ℚ, (similarity_search store doc score top_k).filter (fun a => score a == q) =
        (get_by_document store doc).filter (fun a => score a == q))) ∧
    (∀ v w : List ℚ, 0 < cosineDenom v w) := by
  refine ⟨sortAscBy_pairwise _ _, ?_, ?_, ?_, fun v w => cosineDenom_pos v w⟩
  · rw [similarity_search]
    by_cases h : (get_by_document store doc).isEmpty
    · simp [h]
    · simp only [h, if_neg, Bool.false_eq_true, not_false_iff]
      rw [List.length_take]
      omega
  · rw [similarity_search]
    by_cases h : (get_by_document store doc).isEmpty
    · simp [h]
    · simp only [h, if_neg, Bool.false_eq_true, not_false_iff]
      exact List.Pairwise.sublist (List.take_sublist _ _) (sortDescBy_pairwise score _)
  · intro hk
    have hlen : (sortDescBy score (get_by_document store doc)).length =
        (get_by_document store doc).length :=
      (sortDescBy_perm score _).length_eq
    have htake : (sortDescBy score (get_by_document store doc)).take top_k =
        sortDescBy score (get_by_document store doc) :=
      List.take_of_length_le (by omega)
    rw [similarity_search]
    by_cases h : (get_by_document store doc).isEmpty
    · rw [List.isEmpty_iff] at h
      simp [h, List.isEmpty_iff]
    · simp only [h, if_neg, Bool.false_eq_true, not_false_iff, htake]
      exact ⟨sortDescBy_perm score _, fun q => filter_sortDescBy score q _⟩

/-- Witness for `similarity_search_spec` on a concrete two-chunk store with
`top_k = 5 ≥ k = 2`. -/
theorem similarity_search_spec_witness :
    (similarity_search [⟨"d", 0, "a", [1]⟩, ⟨"d", 1, "b", [2]⟩] "d"
        (fun c => (c.chunk_index : ℚ)) 5).Perm
      (get_by_document [⟨"d", 0, "a", [1]⟩, ⟨"d", 1, "b", [2]⟩] "d") :=
  ((similarity_search_spec [⟨"d", 0, "a", [1]⟩, ⟨"d", 1, "b", [2]⟩] "d"
      (fun c => (c.chunk_index : ℚ)) 5).2.2.2.1 (by decide)).1

/-- C7: after `index_document`, the stored chunk set of the document is
exactly the chunks produced by this call, with chunk indices `0..n-1` (hence
no duplicates and nothing left over from a previous indexing generation), and
the returned count is the number of chunks stored. -/
theorem index_document_spec (embed : String → List ℚ) (store : List EmbeddingChunk)
    (doc : String) (text : List Char) :
    ((index_document embed store doc text).1.filter (fun c => c.document_id == doc) =
      ((chunk_text text).map String.mk).enum.map
        (fun p => EmbeddingChunk.mk doc p.1 p.2 (embed p.2))) ∧
    ((index_document embed store doc text).1.filter
        (fun c => c.document_id == doc)).length =
      (index_document embed store doc text).2 ∧
    ((index_document embed store doc text).1.filter
        (fun c => c.document_id == doc)).map (fun c => c.chunk_index) =
      List.range (index_document embed store doc text).2 := by
  have hdel : ∀ s, (delete_by_document s doc).filter (fun c => c.document_id == doc) = [] := by
    intro s
    rw [delete_by_document, List.filter_filter]
    apply List.filter_eq_nil.2
    intro a _
    simp
  have hnew : (((chunk_text text).map String.mk).enum.map
      (fun p => EmbeddingChunk.mk doc p.1 p.2 (embed p.2))).filter
        (fun c => c.document_id == doc) =
      ((chunk_text text).map String.mk).enum.map
        (fun p => EmbeddingChunk.mk doc p.1 p.2 (embed p.2)) := by
    apply List.filter_eq_self.2
    intro a ha
    obtain ⟨p, _, rfl⟩ := List.mem_map.1 ha
    simp
  rw [index_document]
  by_cases h : ((chunk_text text).map String.mk).isEmpty
  · rw [List.isEmpty_iff] at h
    simp only [h, List.isEmpty_nil, if_pos, List.enum_nil, List.map_nil]
    exact ⟨hdel store, by simp [hdel store], by simp [hdel store]⟩
  · simp only [h, Bool.false_eq_true, if_neg, not_false_iff, create_many]
    rw [List.filter_append, hdel store, hnew, List.nil_append]
    refine ⟨rfl, rfl, ?_⟩
    rw [List.map_map, List.length_map]
    have : ((fun c : EmbeddingChunk => c.chunk_index) ∘
        (fun p : Nat × String => EmbeddingChunk.mk doc p.1 p.2 (embed p.2))) =
        Prod.fst := by
      funext p
      rfl
    rw [this, List.enum_map_fst, List.enum_length]

/-- C3 (amended): `RAGPipeline.query` short-circuits with the fixed "not
indexed" response — `model_used` null, no `chunks_used` key, and no Gateway
call — whenever the document has no stored chunks; every returned result
either is that short-circuit (Gateway untouched) or carries all of `answer`,
`sources`, `chunks_used`, `model_used` and `has_admin_corrections`, with the
Gateway called exactly once. -/
theorem rag_query_spec (gw : String → String → Except String GatewayOk)
    (score : EmbeddingChunk → ℚ) (docLookup : Option DocumentInfo)
    (store : List EmbeddingChunk) (doc question : String) (top_k : Nat) :
    (get_by_document store doc = [] →
      rag_query gw score docLookup store doc question top_k =
        .ok (⟨notIndexedAnswer, [], none, none, none⟩, false)) ∧
    (∀ r called, rag_query gw score docLookup store doc question top_k = .ok (r, called) →
      (r = ⟨notIndexedAnswer, [], none, none, none⟩ ∧ called = false) ∨
      (r.chunks_used = some (similarity_search store doc score top_k).length ∧
        r.model_used.isSome ∧ r.has_admin_corrections.isSome ∧ called = true)) := by
  constructor
  · intro h
    unfold rag_query
    have : similarity_search store doc score top_k = [] := by
      rw [similarity_search]
      simp [h, List.isEmpty_iff]
    simp [this]
  · intro r called h
    unfold rag_query at h
    by_cases he : (similarity_search store doc score top_k).isEmpty
    · simp only [he, if_pos, Except.ok.injEq, Prod.mk.injEq] at h
      exact Or.inl ⟨h.1.symm, h.2.symm⟩
    · simp only [he, Bool.false_eq_true, if_neg, not_false_iff] at h
      rcases hg : gw _ question with e | g
      · rw [hg] at h
        exact absurd h (by simp)
      · rw [hg] at h
        simp only [Except.ok.injEq, Prod.mk.injEq] at h
        refine Or.inr ?_
        rw [← h.1, ← h.2]
        refine ⟨rfl, rfl, ?_, rfl⟩
        cases docLookup <;> rfl

/-- Witness for `rag_query_spec`: a document with zero stored chunks yields
the short-circuit result with no Gateway call. -/
theorem rag_query_spec_witness :
    rag_query (fun _ _ => .error "backend down") (fun _ => 0) none [] "d" "q" 3 =
      .ok (⟨notIndexedAnswer, [], none, none, none⟩, false) :=
  (rag_query_spec (fun _ _ => .error "backend down") (fun _ => 0) none [] "d" "q" 3).1 rfl

/-- Counterexample to C3 as stated: for a document with zero stored chunks the
returned dict has no `chunks_used` key (only `answer`, `sources` and
`model_used`), so not every returned result carries a `chunks_used` field. -/
theorem rag_query_short_circuit_lacks_chunks_used :
    rag_query (fun _ _ => .error "backend down") (fun _ => 0) none [] "d" "q" 3 =
      .ok (⟨notIndexedAnswer, [], none, none, none⟩, false) ∧
    (QueryResult.mk notIndexedAnswer [] none none none).chunks_used = none := by
  constructor
  · rfl
  · rfl

/-- A member of the pool has an index. -/
theorem indexOf?_of_mem {l : List String} {a : String} (h : a ∈ l) :
    ∃ i, List.indexOf? a l = some i := by
  induction l with
  | nil => cases h
  | cons b bs ih =>
    rw [List.indexOf?_cons]
    by_cases hb : b == a
    · exact ⟨0, by simp [hb]⟩
    · have h2 : a ∈ bs := by
        rcases List.mem_cons.1 h with rfl | h2
        · simp at hb
        · exact h2
      obtain ⟨i, hi⟩ := ih h2
      exact ⟨i + 1, by simp [hb, hi]⟩

/-- The fallback model is always a pool member. -/
theorem nextFallback_mem (models : List String) (c x : String)
    (h : nextFallback models c = some x) : x ∈ models := by
  rw [nextFallback] at h
  rcases hidx : models.indexOf? c with _ | i
  · rw [hidx] at h
    rcases models with _ | ⟨m, ms⟩
    · simp [List.head?] at h
    · simp [List.head?] at h
      simp [h]
  · rw [hidx] at h
    exact List.get?_mem h

/-- A pool member always has a (pooled) fallback model. -/
theorem nextFallback_of_mem (models : List String) (c : String) (h : c ∈ models) :
    ∃ x, nextFallback models c = some x := by
  obtain ⟨i, hi⟩ := indexOf?_of_mem h
  have hlen : 0 < models.length := List.length_pos.2 (List.ne_nil_of_mem h)
  have hlt : (i + 1) % models.length < models.length := Nat.mod_lt _ hlen
  refine ⟨models.get ⟨(i + 1) % models.length, hlt⟩, ?_⟩
  rw [nextFallback, hi]
  exact List.get?_eq_get hlt

/-- When every attempt of a model fails, its retry wrapper reports the third
attempt's error. -/
theorem invokeWithRetry_fail (att : Nat → Except String String)
    (h : ∀ i, ∃ e, att i = Except.error e) :
    invokeWithRetry att = att 2 ∧ ∃ e, invokeWithRetry att = Except.error e := by
  obtain ⟨e0, h0⟩ := h 0
  obtain ⟨e1, h1⟩ := h 1
  obtain ⟨e2, h2⟩ := h 2
  rw [invokeWithRetry, h0, h1]
  exact ⟨rfl, e2, h2⟩

/-- All-fail behaviour of the fallback loop, by induction on the fuel with
the loop's invariants: the loop terminates with the terminal error message
carrying some pooled model's final-attempt error. -/
theorem invokeLoop_all_fail (clean : String → String)
    (att : String → Nat → Except String String) (models : List String)
    (hfail : ∀ m i, ∃ e, att m i = Except.error e) :
    ∀ fuel tried selected, selected ∈ models → selected ∉ tried →
      tried ⊆ models → tried.Nodup → fuel + tried.length = models.length + 1 →
      ∃ m ∈ models, ∃ e, att m 2 = Except.error e ∧
        invokeLoop clean att models fuel tried selected =
          Except.error ("All models failed. Last error: " ++ e) := by
  intro fuel
  induction fuel with
  | zero =>
    intro tried selected hsel hnot hsub hnd hfuel
    have := (List.subperm_of_subset hnd hsub).length_le
    omega
  | succ fuel ih =>
    intro tried selected hsel hnot hsub hnd hfuel
    have hnd1 : (selected :: tried).Nodup := List.nodup_cons.2 ⟨hnot, hnd⟩
    have hsub1 : (selected :: tried) ⊆ models := by
      intro z hz
      rcases List.mem_cons.1 hz with rfl | hz2
      · exact hsel
      · exact hsub hz2
    have hguard : tried.length < models.length := by
      have := (List.subperm_of_subset hnd1 hsub1).length_le
      simp only [List.length_cons] at this
      omega
    obtain ⟨hr2, e, he⟩ := invokeWithRetry_fail (att selected) (hfail selected)
    have hatt2 : att selected 2 = Except.error e := by rw [← hr2, he]
    obtain ⟨next, hnf⟩ := nextFallback_of_mem models selected hsel
    have hnmem : next ∈ models := nextFallback_mem models selected next hnf
    by_cases hmem : next ∈ selected :: tried
    · refine ⟨selected, hsel, e, hatt2, ?_⟩
      rw [invokeLoop, if_pos hguard]
      simp only [if_neg hnot, he, hnf, if_pos hmem]
    · obtain ⟨m, hm, e2, hatt, hloop⟩ := ih (selected :: tried) next hnmem hmem hsub1
        hnd1 (by simp only [List.length_cons]; omega)
      refine ⟨m, hm, e2, hatt, ?_⟩
      rw [invokeLoop, if_pos hguard]
      simp only [if_neg hnot, he, hnf, if_neg hmem]
      exact hloop

/-- C2: (1) the retry wrapper consults only the first three attempts of a
model; (2) when the selected model exhausts its retries and the next model in
pool order succeeds, `invoke` returns that next model as `model_used`; (3)
when every pooled model fails, `invoke` raises the terminal gateway error
carrying the last underlying error (a pooled model's third-attempt error)
rather than returning a result. -/
theorem groq_invoke_spec :
    (∀ a b : Nat → Except String String, (∀ i, i < 3 → a i = b i) →
      invokeWithRetry a = invokeWithRetry b) ∧
    (∀ (clean : String → String) (att : String → Nat → Except String String)
        (models : List String) (A B c : String), A ∈ models → B ≠ A →
      nextFallback models A = some B →
      (∃ e, invokeWithRetry (att A) = Except.error e) →
      invokeWithRetry (att B) = Except.ok c →
      invoke clean att models A = Except.ok ⟨clean c, B⟩) ∧
    (∀ (clean : String → String) (att : String → Nat → Except String String)
        (models : List String) (selected : String), selected ∈ models →
      (∀ m i, ∃ e, att m i = Except.error e) →
      ∃ m ∈ models, ∃ e, att m 2 = Except.error e ∧
        invoke clean att models selected =
          Except.error ("All models failed. Last error: " ++ e)) := by
  refine ⟨?_, ?_, ?_⟩
  · intro a b h
    rw [invokeWithRetry, invokeWithRetry, h 0 (by omega), h 1 (by omega), h 2 (by omega)]
  · intro clean att models A B c hA hBA hnf hAfail hBok
    obtain ⟨e, he⟩ := hAfail
    have hB : B ∈ models := nextFallback_mem models A B hnf
    have hlen2 : 2 ≤ models.length := by
      have hnd : ([B, A] : List String).Nodup := by simp [hBA]
      have hsub : ([B, A] : List String) ⊆ models := by
        intro z hz
        rcases List.mem_cons.1 hz with rfl | hz2
        · exact hB
        · rcases List.mem_cons.1 hz2 with rfl | hz3
          · exact hA
          · cases hz3
      have := (List.subperm_of_subset hnd hsub).length_le
      simpa using this
    obtain ⟨k, hk⟩ : ∃ k, models.length = k + 2 := ⟨models.length - 2, by omega⟩
    rw [invoke, hk, invokeLoop]
    rw [if_pos (show ([] : List String).length < models.length by
      simp only [List.length_nil]; omega)]
    simp only [if_neg (List.not_mem_nil A), he, hnf,
      if_neg (show ¬(B ∈ [A]) by simp [hBA])]
    rw [show k + 2 = k + 1 + 1 from rfl, invokeLoop]
    rw [if_pos (show ([A] : List String).length < models.length by
      simp only [List.length_cons, List.length_nil]; omega)]
    simp only [if_neg (show ¬(B ∈ [A]) by simp [hBA]), hBok]
  · intro clean att models selected hsel hfail
    exact invokeLoop_all_fail clean att models hfail (models.length + 1) [] selected
      hsel (List.not_mem_nil selected) (by intro z hz; cases hz) List.nodup_nil
      (by simp)

/-- Witness for `groq_invoke_spec` on the concrete pool `["a", "b"]` where
every attempt of `"a"` fails and the first attempt of `"b"` succeeds, and on
an all-failing pattern. -/
theorem groq_invoke_spec_witness :
    invoke id (fun m _ => if m = "b" then Except.ok "hi" else Except.error "down")
        ["a", "b"] "a" = Except.ok ⟨"hi", "b"⟩ ∧
    (∃ m ∈ (["a", "b"] : List String), ∃ e,
      (fun (_ : String) (_ : Nat) => (Except.error "boom" : Except String String)) m 2 =
        Except.error e ∧
      invoke id (fun _ _ => Except.error "boom") ["a", "b"] "a" =
        Except.error ("All models failed. Last error: " ++ e)) :=
  ⟨groq_invoke_spec.2.1 id _ ["a", "b"] "a" "b" "hi" (by decide) (by decide)
      (by decide) ⟨"down", rfl⟩ rfl,
   groq_invoke_spec.2.2 id _ ["a", "b"] "a" (by decide) (fun m i => ⟨"boom", rfl⟩)⟩

/-- A string with a non-empty prefix is non-empty. -/
theorem append_ne_empty (p e : String) (hp : p ≠ "") : p ++ e ≠ "" := by
  intro h
  have hlen := congrArg String.length h
  rw [String.length_append] at hlen
  have h0 : ("" : String).length = 0 := rfl
  have hp0 : p.length = 0 := by omega
  exact hp (String.ext (List.length_eq_zero.1 hp0))

/-- Truthiness of a present, non-empty string. -/
theorem optStrTruthy_some_of_ne (s : String) (h : s ≠ "") :
    optStrTruthy (some s) = true := by
  simp [optStrTruthy, h]

/-- Truthiness unfolded. -/
theorem optStrTruthy_iff (o : Option String) :
    optStrTruthy o = true ↔ o ≠ none ∧ o ≠ some "" := by
  cases o with
  | none => simp [optStrTruthy]
  | some s => simp [optStrTruthy]

/-- `response_node` always yields a truthy (present and non-empty) response
string. -/
theorem response_node_truthy (s : AgentState) :
    optStrTruthy (response_node s).response = true := by
  rw [response_node]
  by_cases h1 : optStrTruthy s.response = true
  · rw [if_pos h1]
    exact h1
  · rw [if_neg h1]
    by_cases h2 : optStrTruthy s.error = true
    · rw [if_pos h2]
      exact optStrTruthy_some_of_ne _ (append_ne_empty _ _ (by decide))
    · rw [if_neg h2]
      exact optStrTruthy_some_of_ne _ (by decide)

/-- C9: every orchestration run exits through the `response` node (the single
terminal state on every routing path), the final state always carries a
present, non-empty response string, and when no handler produced a response
`response` synthesizes the generic apology referencing the recorded error
(or the fixed message when no error is recorded). -/
theorem orchestration_response_spec :
    (∀ (o : Oracles) (s0 : AgentState), ∃ s, runAgentGraph o s0 = response_node s) ∧
    (∀ (o : Oracles) (s0 : AgentState),
      (runAgentGraph o s0).response ≠ none ∧ (runAgentGraph o s0).response ≠ some "") ∧
    (∀ s : AgentState, optStrTruthy s.response = false →
      (optStrTruthy s.error = true →
        (response_node s).response =
          some ("Sorry, something went wrong: " ++ s.error.getD "")) ∧
      (optStrTruthy s.error = false →
        (response_node s).response =
          some "I processed your request but have no response to show.")) := by
  have hexit : ∀ (o : Oracles) (s0 : AgentState), ∃ s, runAgentGraph o s0 = response_node s := by
    intro o s0
    rw [runAgentGraph]
    split
    · exact ⟨_, rfl⟩
    · split
      · exact ⟨_, rfl⟩
      · exact ⟨_, rfl⟩
  refine ⟨hexit, ?_, ?_⟩
  · intro o s0
    obtain ⟨s, hs⟩ := hexit o s0
    rw [hs]
    exact (optStrTruthy_iff _).1 (response_node_truthy s)
  · intro s hresp
    constructor
    · intro herr
      rw [response_node, if_neg (by simp [hresp]), if_pos herr]
    · intro herr
      rw [response_node, if_neg (by simp [hresp]), if_neg (by simp [herr])]

/-- Witness for `orchestration_response_spec`: a concrete run with every
collaborator failing still yields a non-empty response, and `response_node`
synthesizes the apology on a concrete errored state. -/
theorem orchestration_response_spec_witness :
    (runAgentGraph {} { user_message := "hello" }).response ≠ some "" ∧
    (response_node { user_message := "x", error := some "boom" }).response =
      some ("Sorry, something went wrong: " ++
        (({ user_message := "x", error := some "boom" } : AgentState)).error.getD "") :=
  ⟨(orchestration_response_spec.2.1 {} { user_message := "hello" }).2,
   (orchestration_response_spec.2.2 { user_message := "x", error := some "boom" } rfl).1 rfl⟩

/-- C5: any message whose lowercased text contains `"export"`, or both
`"download"` and `"invoice"`, is classified `export_invoices` by the
unconditional fast-path — for every Gateway state and parser (no Gateway
call is made: the effect list is empty) — with format `"excel"` when the
message mentions `"excel"` or `"xlsx"` and `"csv"` otherwise. -/
theorem classify_export_fast_path (gw : Except String GatewayOk)
    (parse : String → Option Classification) (s : AgentState)
    (h : (strContains (strLower s.user_message) "export" ||
        (strContains (strLower s.user_message) "download" &&
         strContains (strLower s.user_message) "invoice")) = true) :
    classify_intent_node gw parse s =
      ({ s with
          intent := some "export_invoices"
          export_format := some (if strContains (strLower s.user_message) "excel" ||
              strContains (strLower s.user_message) "xlsx" then "excel" else "csv")
          export_filters := [] }, []) := by
  simp only [classify_intent_node]
  rw [if_pos h]

/-- Witness for `classify_export_fast_path` on a concrete message, with a
failing Gateway. -/
theorem classify_export_fast_path_witness :
    classify_intent_node (.error "down") (fun _ => none)
        { user_message := "Please export my invoices" } =
      ({ ({ user_message := "Please export my invoices" } : AgentState) with
          intent := some "export_invoices"
          export_format := some (if strContains (strLower "Please export my invoices") "excel" ||
              strContains (strLower "Please export my invoices") "xlsx" then "excel" else "csv")
          export_filters := [] }, []) :=
  classify_export_fast_path (.error "down") (fun _ => none)
    { user_message := "Please export my invoices" } (by decide)

/-- C6: each per-document handler (validation, force-validate, delete,
get-details, rag-query), invoked on a state with neither an extracted target
document id nor ambient document context, sets the clarification flag with
its handler-specific question, performs no Gateway or tool call, and leaves
the error field untouched. -/
theorem per_document_handlers_clarify
    (o1 : ToolResult ValidationData) (o2 : ToolResult ForceValidateData)
    (dl : Option String) (dOk : Bool)
    (gw : String → String → Except String GatewayOk) (score : EmbeddingChunk → ℚ)
    (dInfo : Option DocumentInfo) (store : List EmbeddingChunk)
    (res : Except String DetailsResult) (s : AgentState)
    (ht : optStrTruthy s.target_document_id = false)
    (hd : optStrTruthy s.document_id = false) :
    clarifiesWithout (validation_node o1 s) s
      "Which invoice would you like me to validate? Please provide the invoice ID or filename." ∧
    clarifiesWithout (force_validate_node o2 s) s
      "Which invoice would you like me to force validate? Please provide the invoice ID." ∧
    clarifiesWithout (delete_document_node dl dOk s) s
      "Which invoice would you like to delete? Please provide the invoice ID or filename." ∧
    clarifiesWithout (get_details_node res s) s
      "Which invoice would you like details about? Please provide the invoice ID or select one." ∧
    clarifiesWithout (rag_query_node gw score dInfo store s) s
      "Which invoice are you asking about? Please select an invoice first." := by
  have hdoc : pyOr s.target_document_id s.document_id = s.document_id := by
    rw [pyOr, if_neg (by simp [ht])]
  refine ⟨?_, ?_, ?_, ?_, ?_⟩ <;>
    simp [validation_node, force_validate_node, delete_document_node, get_details_node,
      rag_query_node, clarifiesWithout, pyOr, ht, hd]

/-- Witness for `per_document_handlers_clarify` on a concrete
target-and-context-free state. -/
theorem per_document_handlers_clarify_witness :
    clarifiesWithout (validation_node ⟨false, {}, none⟩ { user_message := "validate it" })
      { user_message := "validate it" }
      "Which invoice would you like me to validate? Please provide the invoice ID or filename." :=
  (per_document_handlers_clarify ⟨false, {}, none⟩ ⟨false, {}, none⟩ none false
    (fun _ _ => .error "down") (fun _ => 0) none [] (.error "down")
    { user_message := "validate it" } rfl rfl).1

/-- C8 (amended): classification failures never surface to the user.  On a
successful Gateway call whose output fails to parse as JSON, the keyword
heuristics drive the classification (`"list"`+`"invoice"` → list_documents;
`"export"`/`"download"` → export_invoices with format `"excel"` iff the
message mentions `"excel"` — the fallback, unlike the fast-path, does not
check `"xlsx"`; `"validate"` → validate_invoice; `"delete"` →
delete_document; `"detail"`/`"show"` → get_document_details; else
general_chat); on any other classification failure the intent degrades to
general_chat with the error field left unset. -/
theorem classify_failure_fallback_spec :
    (∀ (g : GatewayOk) (parse : String → Option Classification) (s : AgentState),
      (strContains (strLower s.user_message) "export" ||
        (strContains (strLower s.user_message) "download" &&
         strContains (strLower s.user_message) "invoice")) = false →
      parse g.content = none →
      classify_intent_node (.ok g) parse s =
        ({ s with
            intent := some ((heuristicClassification s.user_message).intent.getD "general_chat")
            target_document_id :=
              pyOr (heuristicClassification s.user_message).document_id s.document_id
            export_format := (heuristicClassification s.user_message).export_format
            export_filters := (heuristicClassification s.user_message).export_filters.getD []
            model_used := some g.model_used }, [.gateway])) ∧
    (∀ m : String,
      ((strContains (strLower m) "list" && strContains (strLower m) "invoice") = true →
        heuristicClassification m = { intent := some "list_documents" }) ∧
      ((strContains (strLower m) "list" && strContains (strLower m) "invoice") = false →
        (strContains (strLower m) "export" || strContains (strLower m) "download") = true →
        heuristicClassification m =
          { intent := some "export_invoices",
            export_format := some (if strContains (strLower m) "excel" then "excel" else "csv") }) ∧
      ((strContains (strLower m) "list" && strContains (strLower m) "invoice") = false →
        (strContains (strLower m) "export" || strContains (strLower m) "download") = false →
        strContains (strLower m) "validate" = true →
        heuristicClassification m = { intent := some "validate_invoice" }) ∧
      ((strContains (strLower m) "list" && strContains (strLower m) "invoice") = false →
        (strContains (strLower m) "export" || strContains (strLower m) "download") = false →
        strContains (strLower m) "validate" = false →
        strContains (strLower m) "delete" = true →
        heuristicClassification m = { intent := some "delete_document" }) ∧
      ((strContains (strLower m) "list" && strContains (strLower m) "invoice") = false →
        (strContains (strLower m) "export" || strContains (strLower m) "download") = false →
        strContains (strLower m) "validate" = false →
        strContains (strLower m) "delete" = false →
        (strContains (strLower m) "detail" || strContains (strLower m) "show") = true →
        heuristicClassification m = { intent := some "get_document_details" }) ∧
      ((strContains (strLower m) "list" && strContains (strLower m) "invoice") = false →
        (strContains (strLower m) "export" || strContains (strLower m) "download") = false →
        strContains (strLower m) "validate" = false →
        strContains (strLower m) "delete" = false →
        (strContains (strLower m) "detail" || strContains (strLower m) "show") = false →
        heuristicClassification m = { intent := some "general_chat" })) ∧
    (∀ (e : String) (parse : String → Option Classification) (s : AgentState),
      (strContains (strLower s.user_message) "export" ||
        (strContains (strLower s.user_message) "download" &&
         strContains (strLower s.user_message) "invoice")) = false →
      classify_intent_node (.error e) parse s =
        ({ s with intent := some "general_chat", error := none }, [.gateway])) := by
  refine ⟨?_, ?_, ?_⟩
  · intro g parse s hfast hparse
    simp only [classify_intent_node]
    rw [if_neg (by simp [hfast])]
    simp [hparse]
  · intro m
    refine ⟨?_, ?_, ?_, ?_, ?_, ?_⟩ <;>
      intros <;>
      simp only [heuristicClassification] <;>
      simp_all
  · intro e parse s hfast
    simp only [classify_intent_node]
    rw [if_neg (by simp [hfast])]

/-- Witness for `classify_failure_fallback_spec`: with the Gateway returning
unparseable output for the message `"review and validate this"`, the
heuristics classify `validate_invoice`; with the Gateway down, the intent
degrades to `general_chat` with no error. -/
theorem classify_failure_fallback_spec_witness :
    heuristicClassification "review and validate this" = { intent := some "validate_invoice" } ∧
    classify_intent_node (.error "down") (fun _ => none) { user_message := "hello there" } =
      ({ ({ user_message := "hello there" } : AgentState) with
          intent := some "general_chat", error := none }, [.gateway]) :=
  ⟨(classify_failure_fallback_spec.2.1 "review and validate this").2.2.1
      (by decide) (by decide) (by decide),
   classify_failure_fallback_spec.2.2 "down" (fun _ => none)
      { user_message := "hello there" } (by decide)⟩

/-- Counterexample to C8 as stated: on parse failure for the message
`"download the report as xlsx please"` (which reaches the fallback since it
contains neither `"export"` nor `"invoice"`), the keyword heuristics infer
format `"csv"`, although the message mentions `"xlsx"` and the fast-path
rule ("the same way") would give `"excel"`. -/
theorem classify_fallback_xlsx_counterexample :
    (classify_intent_node (.ok ⟨"not json", "m1"⟩) (fun _ => none)
        { user_message := "download the report as xlsx please" }).1.export_format =
      some "csv" ∧
    strContains (strLower "download the report as xlsx please") "xlsx" = true ∧
    (if strContains (strLower "download the report as xlsx please") "excel" ||
        strContains (strLower "download the report as xlsx please") "xlsx"
      then "excel" else "csv") = "excel" := by
  refine ⟨by decide, by decide, by decide⟩

end InvoiceTracker
